import Mathlib

/-!
Verification of the vgc `CentralWidget` / `Splitter` layout engine
(src/libs/vgc/widgets/centralwidget.cpp).

The model is a shallow embedding of the C++ code: widget state is an explicit
structure, every mutating member function becomes a pure state transformer,
and Qt `int` arithmetic is modelled with `Int` (the quantities involved are
far from the 32-bit boundary in every statement below; no overflow occurs in
any computation these theorems evaluate).

Drawing-only bookkeeping (contents margins, input masks, cursor shapes,
repaint requests) is outside the model: per the specification these affect
drawing only, never layout.
-/

namespace Vgc

/-- An axis-aligned rectangle as passed to `QWidget::setGeometry(x, y, w, h)`.
The stored values are exactly the arguments of the call: the model applies no
toolkit-side adjustment. -/
structure Rect where
  x : Int
  y : Int
  w : Int
  h : Int
deriving DecidableEq

/-- `Splitter::Direction` (which side of its adjacent region the divider
pushes when dragged). -/
inductive Direction where
  | left
  | right
  | top
  | bottom
deriving DecidableEq

/-- Qt orientation of the divider strip. -/
inductive Orientation where
  | horizontal
  | vertical
deriving DecidableEq

/-- Modelled from the spec: `vgc::core::clamp` (vgc/core/algorithm.h is not
under src/; only this caller is).  The spec says every numeric mutation
"clamps v to [minimumLength, maximumLength]"; the standard reading, with the
lower bound winning when the bounds cross, is `max lo (min x hi)`. -/
def clamp (x lo hi : Int) : Int :=
  max lo (min x hi)

/-- Modelled from the spec: `Splitter::orientation()` (declared in the header,
which is not under src/).  Spec 4.1: "{Left, Right} => vertical divider
spanning height (horizontal drag axis); {Top, Bottom} => horizontal divider",
i.e. Left/Right dividers have Qt::Horizontal orientation. -/
def Direction.orientation : Direction → Orientation
  | .left => .horizontal
  | .right => .horizontal
  | .top => .vertical
  | .bottom => .vertical

/-- Modelled from the spec: `Splitter::z_` (declared in the header, not under
src/): the pointer position "projected onto the drag axis". -/
def zProj (d : Direction) (px py : Int) : Int :=
  if d.orientation = Orientation.horizontal then px else py

/-- State of a `Splitter` widget (centralwidget.cpp:28-49 lists the fields). -/
structure Splitter where
  direction : Direction
  isResizable : Bool
  length : Int
  minimumLength : Int
  maximumLength : Int
  centerlineStartX : Int
  centerlineStartY : Int
  centerlineLength : Int
  grabWidth : Int
  highlightWidth : Int
  /-- Widget geometry, as last passed to `setGeometry`. -/
  rect : Rect
  /-- Qt visibility set via `show()` / `hide()`. -/
  shown : Bool
  isHovered : Bool
  isPressed : Bool
  lengthOnPress : Int
  zOnPress : Int
deriving DecidableEq

namespace Splitter

/-- `Splitter::updateGeometry_` (centralwidget.cpp:121-163).  Only the widget
rectangle is modelled; the contents-margin / mask bookkeeping of lines 142-156
is drawing-only state. -/
def updateGeometry_ (s : Splitter) : Splitter :=
  { s with rect :=
      if s.isResizable then
        -- int x = centerlineStartPos_.x(); int y = ...; int l = ...;
        let x := s.centerlineStartX
        let y := s.centerlineStartY
        let l := s.centerlineLength
        -- int gw1 = grabWidth_ / 2;  (C++ int division truncates toward zero)
        let gw1 := s.grabWidth.tdiv 2
        if s.direction.orientation = Orientation.horizontal then
          ⟨x - gw1, y, s.grabWidth, l⟩
        else
          ⟨x, y - gw1, l, s.grabWidth⟩
      else ⟨0, 0, 0, 0⟩ }

/-- `Splitter::setLength` (centralwidget.cpp:60-67). -/
def setLength (s : Splitter) (length : Int) : Splitter :=
  let length := clamp length s.minimumLength s.maximumLength
  if s.length ≠ length then ({ s with length := length }).updateGeometry_ else s

/-- `Splitter::setMinimumLength` (centralwidget.cpp:69-73). -/
def setMinimumLength (s : Splitter) (min : Int) : Splitter :=
  let s := { s with minimumLength := min }
  s.setLength s.length

/-- `Splitter::setMaximumLength` (centralwidget.cpp:75-79). -/
def setMaximumLength (s : Splitter) (max : Int) : Splitter :=
  let s := { s with maximumLength := max }
  s.setLength s.length

/-- `Splitter::setLengthRange` (centralwidget.cpp:81-85). -/
def setLengthRange (s : Splitter) (min max : Int) : Splitter :=
  (s.setMinimumLength min).setMaximumLength max

/-- `Splitter::setGrabWidth` (centralwidget.cpp:87-96). -/
def setGrabWidth (s : Splitter) (width : Int) : Splitter :=
  let s := { s with grabWidth := width }
  let s := if s.grabWidth < 0 then { s with grabWidth := 0 } else s
  if s.grabWidth < s.highlightWidth then { s with highlightWidth := s.grabWidth } else s

/-- `Splitter::setHighlightWidth` (centralwidget.cpp:98-107). -/
def setHighlightWidth (s : Splitter) (width : Int) : Splitter :=
  let s := { s with highlightWidth := width }
  let s := if s.highlightWidth < 0 then { s with highlightWidth := 0 } else s
  if s.grabWidth < s.highlightWidth then { s with grabWidth := s.highlightWidth } else s

/-- `Splitter::setGeometryFromCenterline` (centralwidget.cpp:114-119). -/
def setGeometryFromCenterline (s : Splitter) (x y l : Int) : Splitter :=
  ({ s with centerlineStartX := x, centerlineStartY := y, centerlineLength := l
   }).updateGeometry_

/-- The `Splitter` constructor (centralwidget.cpp:28-49): clamps the initial
length, initialises grab width 10 and highlight width 4, then runs
`updateGeometry_`. -/
def construct (direction : Direction) (isResizable : Bool)
    (length minimumLength maximumLength : Int) : Splitter :=
  ({ direction := direction
     isResizable := isResizable
     length := clamp length minimumLength maximumLength
     minimumLength := minimumLength
     maximumLength := maximumLength
     centerlineStartX := 0
     centerlineStartY := 0
     centerlineLength := 0
     grabWidth := 10
     highlightWidth := 4
     rect := ⟨0, 0, 0, 0⟩
     shown := true
     isHovered := false
     isPressed := false
     lengthOnPress := 0
     zOnPress := 0 } : Splitter).updateGeometry_

/-- The length update performed by `Splitter::mouseMoveEvent`
(centralwidget.cpp:200-213) before notifying the parent: the new length is
`lengthOnPress ± offset` depending on direction, clamped. -/
def dragLength (s : Splitter) (z : Int) : Splitter :=
  let offset := z - s.zOnPress
  let length :=
    if s.direction = Direction.right ∨ s.direction = Direction.bottom then
      s.lengthOnPress + offset
    else
      s.lengthOnPress - offset
  { s with length := clamp length s.minimumLength s.maximumLength }

/-- `Splitter::mousePressEvent` (centralwidget.cpp:190-198), for a
primary-button press at pointer position `(px, py)`. -/
def mousePress (s : Splitter) (px py : Int) : Splitter :=
  { s with isPressed := true, lengthOnPress := s.length, zOnPress := zProj s.direction px py }

end Splitter

/-- State of the `CentralWidget`: the four regions' assigned rectangles, the
three splitters (`splitters_[0]`, `[1]`, `[2]`), the margin, the container
size, the satellite visibilities (`isVisibleTo(this)` of each satellite
widget) and the viewer's minimum-size hint. -/
structure CentralWidget where
  margin : Int
  width : Int
  height : Int
  toolbarVisible : Bool
  panelVisible : Bool
  consoleVisible : Bool
  viewerMinW : Int
  viewerMinH : Int
  s0 : Splitter
  s1 : Splitter
  s2 : Splitter
  toolbarRect : Rect
  viewerRect : Rect
  consoleRect : Rect
  panelRect : Rect
deriving DecidableEq

namespace CentralWidget

/-- `int m1 = M / 2;` (centralwidget.cpp:319; C++ division truncates). -/
def m1 (c : CentralWidget) : Int := c.margin.tdiv 2

/-- `int m2 = M - m1;` (centralwidget.cpp:320). -/
def m2 (c : CentralWidget) : Int := c.margin - c.m1

/-- `int x1 = m1;` (centralwidget.cpp:325). -/
def x1 (c : CentralWidget) : Int := c.m1

/-- `int x4 = w - m2;` (centralwidget.cpp:326). -/
def x4 (c : CentralWidget) : Int := c.width - c.m2

/-- `int y1 = m1;` (centralwidget.cpp:327). -/
def y1 (c : CentralWidget) : Int := c.m1

/-- `int y3 = h - m2;` (centralwidget.cpp:328). -/
def y3 (c : CentralWidget) : Int := c.height - c.m2

/-- `x2`: left edge of the viewer column (centralwidget.cpp:331-340), computed
from the toolbar splitter's length at entry to `updateGeometries_`. -/
def x2 (c : CentralWidget) : Int :=
  if c.toolbarVisible then c.x1 + c.margin + c.s0.length else c.x1

/-- `x3`: right edge of the viewer column (centralwidget.cpp:343-352). -/
def x3 (c : CentralWidget) : Int :=
  if c.panelVisible then c.x4 - c.margin - c.s1.length else c.x4

/-- `y2`: top edge of the console row (centralwidget.cpp:355-364). -/
def y2 (c : CentralWidget) : Int :=
  if c.consoleVisible then c.y3 - c.margin - c.s2.length else c.y3

/-- The maximum length assigned to `splitters_[0]` in the reconciliation loop:
`x3 - x1 - 2*M - vMinSize.width()` (centralwidget.cpp:372). -/
def max0 (c : CentralWidget) : Int := c.x3 - c.x1 - 2 * c.margin - c.viewerMinW

/-- The maximum length assigned to `splitters_[1]`:
`x4 - x2 - 2*M - vMinSize.width()` (centralwidget.cpp:373). -/
def max1 (c : CentralWidget) : Int := c.x4 - c.x2 - 2 * c.margin - c.viewerMinW

/-- The maximum length assigned to `splitters_[2]`:
`y3 - y1 - 2*M - vMinSize.height()` (centralwidget.cpp:374). -/
def max2 (c : CentralWidget) : Int := c.y3 - c.y1 - 2 * c.margin - c.viewerMinH

end CentralWidget

/-- One iteration of the maximum-length reconciliation loop
(centralwidget.cpp:371-375).  The bounds `k0, k1, k2` are computed from the
local variables `x1 ... y3`, which the loop body does not recompute, so they
are parameters here. -/
def maxLengthsPass (k0 k1 k2 : Int) (s : Splitter × Splitter × Splitter) :
    Splitter × Splitter × Splitter :=
  (s.1.setMaximumLength k0, s.2.1.setMaximumLength k1, s.2.2.setMaximumLength k2)

namespace CentralWidget

/-- `CentralWidget::updateGeometries_` (centralwidget.cpp:316-386): places the
three splitter centerlines from the entry lengths, shows/hides the splitters,
runs the maximum-length loop twice, then assigns the four region rectangles
(the raw `setGeometry` arguments of lines 378-381). -/
def updateGeometries_ (c : CentralWidget) : CentralWidget :=
  let M := c.margin
  let m2 := c.m2
  let x1 := c.x1
  let x2 := c.x2
  let x3 := c.x3
  let x4 := c.x4
  let y1 := c.y1
  let y2 := c.y2
  let y3 := c.y3
  -- Splitter between toolbar and viewer/console (lines 331-340)
  let s0 :=
    if c.toolbarVisible then
      { c.s0.setGeometryFromCenterline x2 (y1 + m2) (y3 - y1 - M) with shown := true }
    else
      { c.s0 with shown := false }
  -- Splitter between viewer/console and panels (lines 343-352)
  let s1 :=
    if c.panelVisible then
      { c.s1.setGeometryFromCenterline x3 (y1 + m2) (y3 - y1 - M) with shown := true }
    else
      { c.s1 with shown := false }
  -- Splitter between viewer and console (lines 355-364)
  let s2 :=
    if c.consoleVisible then
      { c.s2.setGeometryFromCenterline (x2 + m2) y2 (x3 - x2 - M) with shown := true }
    else
      { c.s2 with shown := false }
  -- `for (int i = 0; i < 2; ++i) { ... }` (lines 371-375)
  let t := maxLengthsPass c.max0 c.max1 c.max2
    (maxLengthsPass c.max0 c.max1 c.max2 (s0, s1, s2))
  -- Set geometry of actual useful widgets (lines 378-381)
  { c with
    s0 := t.1
    s1 := t.2.1
    s2 := t.2.2
    toolbarRect := ⟨x1 + m2, y1 + m2, x2 - x1 - M, y3 - y1 - M⟩
    viewerRect := ⟨x2 + m2, y1 + m2, x3 - x2 - M, y2 - y1 - M⟩
    consoleRect := ⟨x2 + m2, y2 + m2, x3 - x2 - M, y3 - y2 - M⟩
    panelRect := ⟨x3 + m2, y1 + m2, x4 - x3 - M, y3 - y1 - M⟩ }

/-- Width component of `CentralWidget::minimumSizeHint`
(centralwidget.cpp:295-309). -/
def minimumSizeHintW (c : CentralWidget) : Int :=
  2 * c.margin + c.viewerMinW
    + (if c.toolbarVisible then c.margin + c.s0.minimumLength else 0)
    + (if c.panelVisible then c.margin + c.s1.minimumLength else 0)

/-- Height component of `CentralWidget::minimumSizeHint`
(centralwidget.cpp:295-309). -/
def minimumSizeHintH (c : CentralWidget) : Int :=
  2 * c.margin + c.viewerMinH
    + (if c.consoleVisible then c.margin + c.s2.minimumLength else 0)

/-- Toggling the toolbar's visibility triggers a geometry recompute (the
toggle actions of centralwidget.cpp:251-255 connect `toggled` to
`updateGeometries_`; a toolbar visibility change reaches the recompute the
same way through `resizeEvent`/relayout). -/
def setToolbarVisible (c : CentralWidget) (b : Bool) : CentralWidget :=
  ({ c with toolbarVisible := b }).updateGeometries_

/-- Toggling the panel's visibility (ToggleViewAction wiring,
centralwidget.cpp:254-255) and the recompute it triggers. -/
def setPanelVisible (c : CentralWidget) (b : Bool) : CentralWidget :=
  ({ c with panelVisible := b }).updateGeometries_

/-- Toggling the console's visibility (ToggleViewAction wiring,
centralwidget.cpp:251-252) and the recompute it triggers. -/
def setConsoleVisible (c : CentralWidget) (b : Bool) : CentralWidget :=
  ({ c with consoleVisible := b }).updateGeometries_

/-- A primary-button press on the panel divider `splitters_[1]`
(`Splitter::mousePressEvent`, centralwidget.cpp:190-198). -/
def s1MousePress (c : CentralWidget) (px py : Int) : CentralWidget :=
  { c with s1 := c.s1.mousePress px py }

/-- A pointer move on the panel divider while the primary button is held
(`Splitter::mouseMoveEvent`, centralwidget.cpp:200-213): the splitter updates
its length directly, then calls `parent_->updateGeometries_()`. -/
def s1MouseMove (c : CentralWidget) (px py : Int) : CentralWidget :=
  ({ c with s1 := c.s1.dragLength (zProj c.s1.direction px py) }).updateGeometries_

end CentralWidget

/-! ## Auxiliary definitions -/

/-- Convenience constructor for a `CentralWidget` state whose region
rectangles start out empty (they are overwritten by every recompute). -/
def mkCW (margin width height : Int) (t p co : Bool) (vw vh : Int)
    (s0 s1 s2 : Splitter) : CentralWidget :=
  { margin := margin, width := width, height := height,
    toolbarVisible := t, panelVisible := p, consoleVisible := co,
    viewerMinW := vw, viewerMinH := vh, s0 := s0, s1 := s1, s2 := s2,
    toolbarRect := ⟨0, 0, 0, 0⟩, viewerRect := ⟨0, 0, 0, 0⟩,
    consoleRect := ⟨0, 0, 0, 0⟩, panelRect := ⟨0, 0, 0, 0⟩ }

/-- The state of C2's scenario: container 1000x800, margin 0, toolbar hidden,
panel visible with length 200 (min 200, stored maximum not constraining),
console visible with length 200 (min 50), splitters as constructed in
centralwidget.cpp:277-279. -/
def c2state : CentralWidget :=
  mkCW 0 1000 800 false true true 0 0
    (Splitter.construct Direction.right false 68 68 1000000)
    (Splitter.construct Direction.left true 200 200 1000000)
    (Splitter.construct Direction.top true 200 50 1000000)

/-- One mutation of a divider's length or bounds, per C5's list: the four
setters, construction, and the drag update of `mouseMoveEvent`. -/
inductive LengthMutation where
  | setLength (v : Int)
  | setMinimumLength (v : Int)
  | setMaximumLength (v : Int)
  | setLengthRange (lo hi : Int)
  | construct (d : Direction) (r : Bool) (len lo hi : Int)
  | drag (z : Int)

/-- Apply a `LengthMutation` to a splitter state. -/
def Splitter.applyLengthMutation (s : Splitter) : LengthMutation → Splitter
  | .setLength v => s.setLength v
  | .setMinimumLength v => s.setMinimumLength v
  | .setMaximumLength v => s.setMaximumLength v
  | .setLengthRange lo hi => s.setLengthRange lo hi
  | .construct d r len lo hi => Splitter.construct d r len lo hi
  | .drag z => s.dragLength z

/-- A splitter about to receive a bound mutation that crosses its bounds. -/
def c5state : Splitter := Splitter.construct Direction.left true 200 200 1000000

/-- A call to one of the two width setters. -/
inductive WidthOp where
  | grab (w : Int)
  | highlight (w : Int)

/-- Apply a width-setter call to a splitter state. -/
def Splitter.applyWidthOp (s : Splitter) : WidthOp → Splitter
  | .grab w => s.setGrabWidth w
  | .highlight w => s.setHighlightWidth w

/-- Apply a sequence of width-setter calls, oldest first. -/
def Splitter.applyWidthOps (s : Splitter) (ops : List WidthOp) : Splitter :=
  ops.foldl Splitter.applyWidthOp s

/-- The entry lengths of a state are already what the recompute's clamping
would produce: `clamp length minimumLength K = length` for each splitter,
where K is the in-call maximum `updateGeometries_` computes for it.  Every
state the recompute outputs from reasonable entry lengths satisfies this. -/
def CentralWidget.LengthsFixed (c : CentralWidget) : Prop :=
  clamp c.s0.length c.s0.minimumLength c.max0 = c.s0.length ∧
  clamp c.s1.length c.s1.minimumLength c.max1 = c.s1.length ∧
  clamp c.s2.length c.s2.minimumLength c.max2 = c.s2.length

instance (c : CentralWidget) : Decidable c.LengthsFixed :=
  inferInstanceAs (Decidable
    (clamp c.s0.length c.s0.minimumLength c.max0 = c.s0.length ∧
     clamp c.s1.length c.s1.minimumLength c.max1 = c.s1.length ∧
     clamp c.s2.length c.s2.minimumLength c.max2 = c.s2.length))

/-- The value `updateGeometries_` takes on a state whose lengths it does not
re-clamp: splitter centerlines, visibility and maxima are overwritten, the
region rectangles are assigned, and nothing else changes. -/
def CentralWidget.canonicalForm (c : CentralWidget) : CentralWidget :=
  { c with
    s0 := { (if c.toolbarVisible then
              { c.s0.setGeometryFromCenterline c.x2 (c.y1 + c.m2) (c.y3 - c.y1 - c.margin)
                with shown := true }
            else { c.s0 with shown := false })
            with maximumLength := c.max0 }
    s1 := { (if c.panelVisible then
              { c.s1.setGeometryFromCenterline c.x3 (c.y1 + c.m2) (c.y3 - c.y1 - c.margin)
                with shown := true }
            else { c.s1 with shown := false })
            with maximumLength := c.max1 }
    s2 := { (if c.consoleVisible then
              { c.s2.setGeometryFromCenterline (c.x2 + c.m2) c.y2 (c.x3 - c.x2 - c.margin)
                with shown := true }
            else { c.s2 with shown := false })
            with maximumLength := c.max2 }
    toolbarRect := ⟨c.x1 + c.m2, c.y1 + c.m2, c.x2 - c.x1 - c.margin, c.y3 - c.y1 - c.margin⟩
    viewerRect := ⟨c.x2 + c.m2, c.y1 + c.m2, c.x3 - c.x2 - c.margin, c.y2 - c.y1 - c.margin⟩
    consoleRect := ⟨c.x2 + c.m2, c.y2 + c.m2, c.x3 - c.x2 - c.margin, c.y3 - c.y2 - c.margin⟩
    panelRect := ⟨c.x3 + c.m2, c.y1 + c.m2, c.x4 - c.x3 - c.margin, c.y3 - c.y1 - c.margin⟩ }

/-- One of the three satellite regions. -/
inductive Satellite where
  | toolbar
  | panel
  | console

/-- The visibility flag of the given satellite. -/
def CentralWidget.satelliteVisible (c : CentralWidget) : Satellite → Bool
  | .toolbar => c.toolbarVisible
  | .panel => c.panelVisible
  | .console => c.consoleVisible

/-- Set the visibility of the given satellite region; as in the source, every
visibility change triggers `updateGeometries_`. -/
def CentralWidget.setSatelliteVisible (c : CentralWidget) (r : Satellite) (b : Bool) :
    CentralWidget :=
  match r with
  | .toolbar => c.setToolbarVisible b
  | .panel => c.setPanelVisible b
  | .console => c.setConsoleVisible b

/-- The rectangles of the four regions and the three dividers, bundled for
comparison. -/
def CentralWidget.allRects (c : CentralWidget) :
    Rect × Rect × Rect × Rect × Rect × Rect × Rect :=
  (c.toolbarRect, c.viewerRect, c.consoleRect, c.panelRect,
   c.s0.rect, c.s1.rect, c.s2.rect)

/-- A reachable state with a stale panel-divider length: the panel divider
was dragged to length 500 while the window was wide, and the container has
since shrunk to 400x400 (toolbar and console hidden, viewer minimum
100x100). -/
def c4bad : CentralWidget :=
  mkCW 0 400 400 false true false 100 100
    (Splitter.construct Direction.right false 68 68 600)
    (Splitter.construct Direction.left true 500 200 800)
    (Splitter.construct Direction.top true 200 50 600)

/-- The stale-length state of `c4bad` with margin 2 and the console visible;
its container 400x400 still exceeds the computed minimum-size hint
(306x156). -/
def c1bad : CentralWidget :=
  mkCW 2 400 400 false true true 100 100
    (Splitter.construct Direction.right false 68 68 600)
    (Splitter.construct Direction.left true 500 200 800)
    (Splitter.construct Direction.top true 200 50 700)

/-- A converged state with margin 2, every satellite visible and container
1000x800: each length is within the maxima the recompute computes. -/
def c1good : CentralWidget :=
  mkCW 2 1000 800 true true true 100 100
    (Splitter.construct Direction.right false 68 68 700)
    (Splitter.construct Direction.left true 200 200 900)
    (Splitter.construct Direction.top true 200 50 700)

/-- A 100x100 container with the panel divider at its minimum length 200:
too narrow for the panel, with nothing clamping the region rectangles. -/
def c3bad : CentralWidget :=
  mkCW 0 100 100 false true false 0 0
    (Splitter.construct Direction.right false 68 68 600)
    (Splitter.construct Direction.left true 200 200 1000000)
    (Splitter.construct Direction.top true 200 50 600)

/-- The converged state of `c1good` with margin 0. -/
def c3good : CentralWidget :=
  mkCW 0 1000 800 true true true 100 100
    (Splitter.construct Direction.right false 68 68 700)
    (Splitter.construct Direction.left true 200 200 900)
    (Splitter.construct Direction.top true 200 50 700)

/-- The stale-length state of `c4bad`, for exercising visibility toggles. -/
def c7bad : CentralWidget :=
  mkCW 0 400 400 false true false 100 100
    (Splitter.construct Direction.right false 68 68 600)
    (Splitter.construct Direction.left true 500 200 800)
    (Splitter.construct Direction.top true 200 50 600)

/-- The converged margin-2 state of `c1good`, for exercising visibility
toggles. -/
def c7good : CentralWidget :=
  mkCW 2 1000 800 true true true 100 100
    (Splitter.construct Direction.right false 68 68 700)
    (Splitter.construct Direction.left true 200 200 900)
    (Splitter.construct Direction.top true 200 50 700)

/-- A wide stable state with the panel divider pressed state about to be
exercised: container 2000x1000, margin 0, only the panel visible, panel
divider at length 500 with range [200, 1700]. -/
def c8good : CentralWidget :=
  mkCW 0 2000 1000 false true false 100 100
    (Splitter.construct Direction.right false 68 68 600)
    (Splitter.construct Direction.left true 500 200 1700)
    (Splitter.construct Direction.top true 200 50 600)

/-! ## Basic lemmas about `clamp` -/

theorem clamp_lo_le (x lo hi : Int) : lo ≤ clamp x lo hi := by
  unfold clamp; omega

theorem clamp_idem (x lo hi : Int) : clamp (clamp x lo hi) lo hi = clamp x lo hi := by
  unfold clamp; omega

theorem clamp_eq_self {x lo hi : Int} (h1 : lo ≤ x) (h2 : x ≤ hi) : clamp x lo hi = x := by
  unfold clamp; omega

theorem clamp_le_of_lo_le {x lo hi : Int} (h : lo ≤ x) : clamp x lo hi ≤ x := by
  unfold clamp; omega

theorem clamp_clamp_of_le {x lo hi hi' : Int} (h : hi ≤ hi') :
    clamp (clamp x lo hi) lo hi' = clamp x lo hi := by
  unfold clamp; omega

theorem clamp_mem {x lo hi : Int} (h : lo ≤ hi) :
    lo ≤ clamp x lo hi ∧ clamp x lo hi ≤ hi := by
  unfold clamp; omega

theorem clamp_fix_of_le {x lo hi hi' : Int} (h : clamp x lo hi = x) (hle : hi ≤ hi') :
    clamp x lo hi' = x := by
  unfold clamp at *; omega

/-! ## Field lemmas about the `Splitter` operations -/

namespace Splitter

theorem eta_maximumLength (r : Splitter) (k : Int) (h : r.maximumLength = k) :
    { r with maximumLength := k } = r := by
  cases r; cases h; rfl

theorem setLength_of_fixed (s : Splitter) (v : Int)
    (h : clamp v s.minimumLength s.maximumLength = s.length) : s.setLength v = s := by
  simp only [setLength, h]
  simp

@[simp] theorem updateGeometry_length (s : Splitter) : s.updateGeometry_.length = s.length := rfl
@[simp] theorem updateGeometry_minimumLength (s : Splitter) :
    s.updateGeometry_.minimumLength = s.minimumLength := rfl
@[simp] theorem updateGeometry_maximumLength (s : Splitter) :
    s.updateGeometry_.maximumLength = s.maximumLength := rfl
@[simp] theorem updateGeometry_direction (s : Splitter) :
    s.updateGeometry_.direction = s.direction := rfl
@[simp] theorem updateGeometry_shown (s : Splitter) : s.updateGeometry_.shown = s.shown := rfl
@[simp] theorem updateGeometry_grabWidth (s : Splitter) :
    s.updateGeometry_.grabWidth = s.grabWidth := rfl
@[simp] theorem updateGeometry_highlightWidth (s : Splitter) :
    s.updateGeometry_.highlightWidth = s.highlightWidth := rfl

/-- `updateGeometry_` recomputes the rectangle from fields it does not modify,
so running it twice is the same as running it once. -/
theorem updateGeometry_idem (s : Splitter) :
    s.updateGeometry_.updateGeometry_ = s.updateGeometry_ := by
  cases s; rfl

@[simp] theorem setMaximumLength_minimumLength (s : Splitter) (k : Int) :
    (s.setMaximumLength k).minimumLength = s.minimumLength := by
  simp only [setMaximumLength, setLength]
  split <;> rfl

@[simp] theorem setMaximumLength_maximumLength (s : Splitter) (k : Int) :
    (s.setMaximumLength k).maximumLength = k := by
  simp only [setMaximumLength, setLength]
  split <;> rfl

@[simp] theorem setMaximumLength_length (s : Splitter) (k : Int) :
    (s.setMaximumLength k).length = clamp s.length s.minimumLength k := by
  simp only [setMaximumLength, setLength]
  split
  · rfl
  · next h => exact not_not.mp h

@[simp] theorem setMaximumLength_direction (s : Splitter) (k : Int) :
    (s.setMaximumLength k).direction = s.direction := by
  simp only [setMaximumLength, setLength]
  split <;> rfl

@[simp] theorem setMaximumLength_shown (s : Splitter) (k : Int) :
    (s.setMaximumLength k).shown = s.shown := by
  simp only [setMaximumLength, setLength]
  split <;> rfl

@[simp] theorem setMaximumLength_grabWidth (s : Splitter) (k : Int) :
    (s.setMaximumLength k).grabWidth = s.grabWidth := by
  simp only [setMaximumLength, setLength]
  split <;> rfl

@[simp] theorem setMaximumLength_highlightWidth (s : Splitter) (k : Int) :
    (s.setMaximumLength k).highlightWidth = s.highlightWidth := by
  simp only [setMaximumLength, setLength]
  split <;> rfl

@[simp] theorem setLength_length (s : Splitter) (v : Int) :
    (s.setLength v).length = clamp v s.minimumLength s.maximumLength := by
  simp only [setLength]
  split
  · rfl
  · next h => exact not_not.mp h

@[simp] theorem setLength_minimumLength (s : Splitter) (v : Int) :
    (s.setLength v).minimumLength = s.minimumLength := by
  simp only [setLength]
  split <;> rfl

@[simp] theorem setLength_maximumLength (s : Splitter) (v : Int) :
    (s.setLength v).maximumLength = s.maximumLength := by
  simp only [setLength]
  split <;> rfl

@[simp] theorem setMinimumLength_minimumLength (s : Splitter) (v : Int) :
    (s.setMinimumLength v).minimumLength = v := by
  simp [setMinimumLength]

@[simp] theorem setMinimumLength_maximumLength (s : Splitter) (v : Int) :
    (s.setMinimumLength v).maximumLength = s.maximumLength := by
  simp [setMinimumLength]

@[simp] theorem setMinimumLength_length (s : Splitter) (v : Int) :
    (s.setMinimumLength v).length = clamp s.length v s.maximumLength := by
  simp [setMinimumLength]

/-- When re-clamping does not change the length, `setMaximumLength` only
overwrites the stored maximum. -/
theorem setMaximumLength_of_len_fixed (s : Splitter) (k : Int)
    (h : clamp s.length s.minimumLength k = s.length) :
    s.setMaximumLength k = { s with maximumLength := k } := by
  simp only [setMaximumLength]
  exact setLength_of_fixed _ _ h

/-- `setMaximumLength` applied twice with the same bound equals a single
application: the second re-clamp is a no-op. -/
theorem setMaximumLength_idem (s : Splitter) (k : Int) :
    (s.setMaximumLength k).setMaximumLength k = s.setMaximumLength k := by
  have h : clamp (s.setMaximumLength k).length (s.setMaximumLength k).minimumLength k
      = (s.setMaximumLength k).length := by
    simp [clamp_idem]
  have := setMaximumLength_of_len_fixed (s.setMaximumLength k) k h
  rw [this, eta_maximumLength _ _ (by simp)]

@[simp] theorem setGeometryFromCenterline_length (s : Splitter) (x y l : Int) :
    (s.setGeometryFromCenterline x y l).length = s.length := rfl
@[simp] theorem setGeometryFromCenterline_minimumLength (s : Splitter) (x y l : Int) :
    (s.setGeometryFromCenterline x y l).minimumLength = s.minimumLength := rfl
@[simp] theorem setGeometryFromCenterline_maximumLength (s : Splitter) (x y l : Int) :
    (s.setGeometryFromCenterline x y l).maximumLength = s.maximumLength := rfl
@[simp] theorem setGeometryFromCenterline_direction (s : Splitter) (x y l : Int) :
    (s.setGeometryFromCenterline x y l).direction = s.direction := rfl
@[simp] theorem setGeometryFromCenterline_grabWidth (s : Splitter) (x y l : Int) :
    (s.setGeometryFromCenterline x y l).grabWidth = s.grabWidth := rfl
@[simp] theorem setGeometryFromCenterline_highlightWidth (s : Splitter) (x y l : Int) :
    (s.setGeometryFromCenterline x y l).highlightWidth = s.highlightWidth := rfl
@[simp] theorem setGeometryFromCenterline_lengthOnPress (s : Splitter) (x y l : Int) :
    (s.setGeometryFromCenterline x y l).lengthOnPress = s.lengthOnPress := rfl
@[simp] theorem setGeometryFromCenterline_zOnPress (s : Splitter) (x y l : Int) :
    (s.setGeometryFromCenterline x y l).zOnPress = s.zOnPress := rfl

/-- The rectangle `setGeometryFromCenterline` derives depends only on the
resizable flag, the direction and the grab width of the splitter, besides the
centerline arguments themselves. -/
theorem sgfc_rect_congr (s s' : Splitter) (x y l : Int)
    (h1 : s.isResizable = s'.isResizable) (h2 : s.direction = s'.direction)
    (h3 : s.grabWidth = s'.grabWidth) :
    (s.setGeometryFromCenterline x y l).rect = (s'.setGeometryFromCenterline x y l).rect := by
  simp [setGeometryFromCenterline, updateGeometry_, h1, h2, h3]

@[simp] theorem setMaximumLength_lengthOnPress (s : Splitter) (k : Int) :
    (s.setMaximumLength k).lengthOnPress = s.lengthOnPress := by
  simp only [setMaximumLength, setLength]
  split <;> rfl

@[simp] theorem setMaximumLength_zOnPress (s : Splitter) (k : Int) :
    (s.setMaximumLength k).zOnPress = s.zOnPress := by
  simp only [setMaximumLength, setLength]
  split <;> rfl

@[simp] theorem dragLength_direction (s : Splitter) (z : Int) :
    (s.dragLength z).direction = s.direction := rfl
@[simp] theorem dragLength_lengthOnPress (s : Splitter) (z : Int) :
    (s.dragLength z).lengthOnPress = s.lengthOnPress := rfl
@[simp] theorem dragLength_zOnPress (s : Splitter) (z : Int) :
    (s.dragLength z).zOnPress = s.zOnPress := rfl

@[simp] theorem mousePress_direction (s : Splitter) (px py : Int) :
    (s.mousePress px py).direction = s.direction := rfl
@[simp] theorem mousePress_length (s : Splitter) (px py : Int) :
    (s.mousePress px py).length = s.length := rfl
@[simp] theorem mousePress_minimumLength (s : Splitter) (px py : Int) :
    (s.mousePress px py).minimumLength = s.minimumLength := rfl
@[simp] theorem mousePress_maximumLength (s : Splitter) (px py : Int) :
    (s.mousePress px py).maximumLength = s.maximumLength := rfl
@[simp] theorem mousePress_lengthOnPress (s : Splitter) (px py : Int) :
    (s.mousePress px py).lengthOnPress = s.length := rfl
@[simp] theorem mousePress_zOnPress (s : Splitter) (px py : Int) :
    (s.mousePress px py).zOnPress = zProj s.direction px py := rfl

@[simp] theorem dragLength_length (s : Splitter) (z : Int) :
    (s.dragLength z).length =
      clamp (if s.direction = Direction.right ∨ s.direction = Direction.bottom then
               s.lengthOnPress + (z - s.zOnPress)
             else s.lengthOnPress - (z - s.zOnPress))
        s.minimumLength s.maximumLength := rfl

@[simp] theorem dragLength_minimumLength (s : Splitter) (z : Int) :
    (s.dragLength z).minimumLength = s.minimumLength := rfl

@[simp] theorem dragLength_maximumLength (s : Splitter) (z : Int) :
    (s.dragLength z).maximumLength = s.maximumLength := rfl

end Splitter

/-! ## Characterization of `updateGeometries_` -/

theorem tdiv2_bounds (m : Int) (h : 0 ≤ m) : 0 ≤ m.tdiv 2 ∧ m.tdiv 2 ≤ m := by
  obtain ⟨n, rfl⟩ := Int.eq_ofNat_of_zero_le h
  have he : ((n : Int)).tdiv 2 = ((n / 2 : Nat) : Int) := rfl
  rw [he]
  omega

namespace CentralWidget

@[simp] theorem update_margin (c : CentralWidget) :
    c.updateGeometries_.margin = c.margin := rfl
@[simp] theorem update_width (c : CentralWidget) :
    c.updateGeometries_.width = c.width := rfl
@[simp] theorem update_height (c : CentralWidget) :
    c.updateGeometries_.height = c.height := rfl
@[simp] theorem update_toolbarVisible (c : CentralWidget) :
    c.updateGeometries_.toolbarVisible = c.toolbarVisible := rfl
@[simp] theorem update_panelVisible (c : CentralWidget) :
    c.updateGeometries_.panelVisible = c.panelVisible := rfl
@[simp] theorem update_consoleVisible (c : CentralWidget) :
    c.updateGeometries_.consoleVisible = c.consoleVisible := rfl
@[simp] theorem update_viewerMinW (c : CentralWidget) :
    c.updateGeometries_.viewerMinW = c.viewerMinW := rfl
@[simp] theorem update_viewerMinH (c : CentralWidget) :
    c.updateGeometries_.viewerMinH = c.viewerMinH := rfl

theorem update_toolbarRect (c : CentralWidget) :
    c.updateGeometries_.toolbarRect =
      ⟨c.x1 + c.m2, c.y1 + c.m2, c.x2 - c.x1 - c.margin, c.y3 - c.y1 - c.margin⟩ := rfl

theorem update_viewerRect (c : CentralWidget) :
    c.updateGeometries_.viewerRect =
      ⟨c.x2 + c.m2, c.y1 + c.m2, c.x3 - c.x2 - c.margin, c.y2 - c.y1 - c.margin⟩ := rfl

theorem update_consoleRect (c : CentralWidget) :
    c.updateGeometries_.consoleRect =
      ⟨c.x2 + c.m2, c.y2 + c.m2, c.x3 - c.x2 - c.margin, c.y3 - c.y2 - c.margin⟩ := rfl

theorem update_panelRect (c : CentralWidget) :
    c.updateGeometries_.panelRect =
      ⟨c.x3 + c.m2, c.y1 + c.m2, c.x4 - c.x3 - c.margin, c.y3 - c.y1 - c.margin⟩ := rfl

/-- The two passes of the maximum-length loop collapse to one (the bounds the
second pass assigns are the ones the first pass assigned), which rewrites
`updateGeometries_` into a one-pass form. -/
theorem updateGeometries_eq (c : CentralWidget) :
    c.updateGeometries_ =
      { c with
        s0 := (if c.toolbarVisible then
                { c.s0.setGeometryFromCenterline c.x2 (c.y1 + c.m2) (c.y3 - c.y1 - c.margin)
                  with shown := true }
              else { c.s0 with shown := false }).setMaximumLength c.max0
        s1 := (if c.panelVisible then
                { c.s1.setGeometryFromCenterline c.x3 (c.y1 + c.m2) (c.y3 - c.y1 - c.margin)
                  with shown := true }
              else { c.s1 with shown := false }).setMaximumLength c.max1
        s2 := (if c.consoleVisible then
                { c.s2.setGeometryFromCenterline (c.x2 + c.m2) c.y2 (c.x3 - c.x2 - c.margin)
                  with shown := true }
              else { c.s2 with shown := false }).setMaximumLength c.max2
        toolbarRect := ⟨c.x1 + c.m2, c.y1 + c.m2, c.x2 - c.x1 - c.margin, c.y3 - c.y1 - c.margin⟩
        viewerRect := ⟨c.x2 + c.m2, c.y1 + c.m2, c.x3 - c.x2 - c.margin, c.y2 - c.y1 - c.margin⟩
        consoleRect := ⟨c.x2 + c.m2, c.y2 + c.m2, c.x3 - c.x2 - c.margin, c.y3 - c.y2 - c.margin⟩
        panelRect := ⟨c.x3 + c.m2, c.y1 + c.m2, c.x4 - c.x3 - c.margin, c.y3 - c.y1 - c.margin⟩ } := by
  simp only [updateGeometries_, maxLengthsPass, Splitter.setMaximumLength_idem]

theorem update_s0 (c : CentralWidget) :
    c.updateGeometries_.s0 =
      (if c.toolbarVisible then
        { c.s0.setGeometryFromCenterline c.x2 (c.y1 + c.m2) (c.y3 - c.y1 - c.margin)
          with shown := true }
      else { c.s0 with shown := false }).setMaximumLength c.max0 := by
  rw [updateGeometries_eq]

theorem update_s1 (c : CentralWidget) :
    c.updateGeometries_.s1 =
      (if c.panelVisible then
        { c.s1.setGeometryFromCenterline c.x3 (c.y1 + c.m2) (c.y3 - c.y1 - c.margin)
          with shown := true }
      else { c.s1 with shown := false }).setMaximumLength c.max1 := by
  rw [updateGeometries_eq]

theorem update_s2 (c : CentralWidget) :
    c.updateGeometries_.s2 =
      (if c.consoleVisible then
        { c.s2.setGeometryFromCenterline (c.x2 + c.m2) c.y2 (c.x3 - c.x2 - c.margin)
          with shown := true }
      else { c.s2 with shown := false }).setMaximumLength c.max2 := by
  rw [updateGeometries_eq]

@[simp] theorem update_s0_length (c : CentralWidget) :
    c.updateGeometries_.s0.length = clamp c.s0.length c.s0.minimumLength c.max0 := by
  rw [update_s0, Splitter.setMaximumLength_length]
  split <;> rfl

@[simp] theorem update_s1_length (c : CentralWidget) :
    c.updateGeometries_.s1.length = clamp c.s1.length c.s1.minimumLength c.max1 := by
  rw [update_s1, Splitter.setMaximumLength_length]
  split <;> rfl

@[simp] theorem update_s2_length (c : CentralWidget) :
    c.updateGeometries_.s2.length = clamp c.s2.length c.s2.minimumLength c.max2 := by
  rw [update_s2, Splitter.setMaximumLength_length]
  split <;> rfl

@[simp] theorem update_s0_minimumLength (c : CentralWidget) :
    c.updateGeometries_.s0.minimumLength = c.s0.minimumLength := by
  rw [update_s0, Splitter.setMaximumLength_minimumLength]
  split <;> rfl

@[simp] theorem update_s1_minimumLength (c : CentralWidget) :
    c.updateGeometries_.s1.minimumLength = c.s1.minimumLength := by
  rw [update_s1, Splitter.setMaximumLength_minimumLength]
  split <;> rfl

@[simp] theorem update_s2_minimumLength (c : CentralWidget) :
    c.updateGeometries_.s2.minimumLength = c.s2.minimumLength := by
  rw [update_s2, Splitter.setMaximumLength_minimumLength]
  split <;> rfl

@[simp] theorem update_s0_maximumLength (c : CentralWidget) :
    c.updateGeometries_.s0.maximumLength = c.max0 := by
  rw [update_s0, Splitter.setMaximumLength_maximumLength]

@[simp] theorem update_s1_maximumLength (c : CentralWidget) :
    c.updateGeometries_.s1.maximumLength = c.max1 := by
  rw [update_s1, Splitter.setMaximumLength_maximumLength]

@[simp] theorem update_s2_maximumLength (c : CentralWidget) :
    c.updateGeometries_.s2.maximumLength = c.max2 := by
  rw [update_s2, Splitter.setMaximumLength_maximumLength]

@[simp] theorem update_s1_direction (c : CentralWidget) :
    c.updateGeometries_.s1.direction = c.s1.direction := by
  rw [update_s1, Splitter.setMaximumLength_direction]
  split <;> rfl

@[simp] theorem update_s1_lengthOnPress (c : CentralWidget) :
    c.updateGeometries_.s1.lengthOnPress = c.s1.lengthOnPress := by
  rw [update_s1, Splitter.setMaximumLength_lengthOnPress]
  split <;> rfl

@[simp] theorem update_s1_zOnPress (c : CentralWidget) :
    c.updateGeometries_.s1.zOnPress = c.s1.zOnPress := by
  rw [update_s1, Splitter.setMaximumLength_zOnPress]
  split <;> rfl

/-- `max2` depends only on the container height, the margin and the viewer's
minimum height, which a recompute never changes. -/
theorem update_max2 (c : CentralWidget) : c.updateGeometries_.max2 = c.max2 := by
  simp [max2, y3, y1, m1, m2]

/-- `max0` after a recompute, in terms of the entry state: the only moving
part is the panel splitter's freshly clamped length. -/
theorem update_max0 (c : CentralWidget) :
    c.updateGeometries_.max0 =
      (if c.panelVisible then
        c.x4 - c.margin - clamp c.s1.length c.s1.minimumLength c.max1
      else c.x4) - c.x1 - 2 * c.margin - c.viewerMinW := by
  simp [max0, x3, x4, x1, m1, m2]

/-- `max1` after a recompute, in terms of the entry state: the only moving
part is the toolbar splitter's freshly clamped length. -/
theorem update_max1 (c : CentralWidget) :
    c.updateGeometries_.max1 =
      c.x4 -
        (if c.toolbarVisible then
          c.x1 + c.margin + clamp c.s0.length c.s0.minimumLength c.max0
        else c.x1) - 2 * c.margin - c.viewerMinW := by
  simp [max1, x2, x4, x1, m1, m2]

/-- After one recompute from a state whose lengths are at least their minima,
the lengths are fixed: clamping can only shrink them, which can only relax
the in-call maxima of the other splitters, so a further clamp is a no-op. -/
theorem lengthsFixed_update (c : CentralWidget)
    (h0 : c.s0.minimumLength ≤ c.s0.length)
    (h1 : c.s1.minimumLength ≤ c.s1.length) :
    c.updateGeometries_.LengthsFixed := by
  unfold LengthsFixed
  rw [update_s0_length, update_s1_length, update_s2_length,
    update_s0_minimumLength, update_s1_minimumLength, update_s2_minimumLength,
    update_max0, update_max1, update_max2]
  refine ⟨?_, ?_, clamp_idem _ _ _⟩
  · apply clamp_clamp_of_le
    have hcl : clamp c.s1.length c.s1.minimumLength c.max1 ≤ c.s1.length :=
      clamp_le_of_lo_le h1
    unfold max0 x3
    cases hp : c.panelVisible <;> simp [hp] <;> omega
  · apply clamp_clamp_of_le
    have hcl : clamp c.s0.length c.s0.minimumLength c.max0 ≤ c.s0.length :=
      clamp_le_of_lo_le h0
    unfold max1 x2
    cases ht : c.toolbarVisible <;> simp [ht] <;> omega

/-- On a state whose lengths the recompute would not change,
`updateGeometries_` is exactly `canonicalForm`. -/
theorem update_of_lengthsFixed (c : CentralWidget) (h : c.LengthsFixed) :
    c.updateGeometries_ = c.canonicalForm := by
  obtain ⟨hf0, hf1, hf2⟩ := h
  rw [updateGeometries_eq]
  unfold canonicalForm
  rw [Splitter.setMaximumLength_of_len_fixed _ _ (by split_ifs <;> simpa using hf0),
    Splitter.setMaximumLength_of_len_fixed _ _ (by split_ifs <;> simpa using hf1),
    Splitter.setMaximumLength_of_len_fixed _ _ (by split_ifs <;> simpa using hf2)]

@[simp] theorem canonicalForm_margin (c : CentralWidget) :
    c.canonicalForm.margin = c.margin := rfl
@[simp] theorem canonicalForm_width (c : CentralWidget) :
    c.canonicalForm.width = c.width := rfl
@[simp] theorem canonicalForm_height (c : CentralWidget) :
    c.canonicalForm.height = c.height := rfl
@[simp] theorem canonicalForm_toolbarVisible (c : CentralWidget) :
    c.canonicalForm.toolbarVisible = c.toolbarVisible := rfl
@[simp] theorem canonicalForm_panelVisible (c : CentralWidget) :
    c.canonicalForm.panelVisible = c.panelVisible := rfl
@[simp] theorem canonicalForm_consoleVisible (c : CentralWidget) :
    c.canonicalForm.consoleVisible = c.consoleVisible := rfl
@[simp] theorem canonicalForm_viewerMinW (c : CentralWidget) :
    c.canonicalForm.viewerMinW = c.viewerMinW := rfl
@[simp] theorem canonicalForm_viewerMinH (c : CentralWidget) :
    c.canonicalForm.viewerMinH = c.viewerMinH := rfl

@[simp] theorem canonicalForm_s0_length (c : CentralWidget) :
    c.canonicalForm.s0.length = c.s0.length := by
  unfold canonicalForm
  split_ifs <;> rfl

@[simp] theorem canonicalForm_s1_length (c : CentralWidget) :
    c.canonicalForm.s1.length = c.s1.length := by
  unfold canonicalForm
  split_ifs <;> rfl

@[simp] theorem canonicalForm_s2_length (c : CentralWidget) :
    c.canonicalForm.s2.length = c.s2.length := by
  unfold canonicalForm
  split_ifs <;> rfl

@[simp] theorem canonicalForm_s0_minimumLength (c : CentralWidget) :
    c.canonicalForm.s0.minimumLength = c.s0.minimumLength := by
  unfold canonicalForm
  split_ifs <;> rfl

@[simp] theorem canonicalForm_s1_minimumLength (c : CentralWidget) :
    c.canonicalForm.s1.minimumLength = c.s1.minimumLength := by
  unfold canonicalForm
  split_ifs <;> rfl

@[simp] theorem canonicalForm_s2_minimumLength (c : CentralWidget) :
    c.canonicalForm.s2.minimumLength = c.s2.minimumLength := by
  unfold canonicalForm
  split_ifs <;> rfl

@[simp] theorem canonicalForm_max0 (c : CentralWidget) :
    c.canonicalForm.max0 = c.max0 := by
  simp [max0, x3, x4, x1, m1, m2]

@[simp] theorem canonicalForm_max1 (c : CentralWidget) :
    c.canonicalForm.max1 = c.max1 := by
  simp [max1, x2, x4, x1, m1, m2]

@[simp] theorem canonicalForm_max2 (c : CentralWidget) :
    c.canonicalForm.max2 = c.max2 := by
  simp [max2, y3, y1, m1, m2]

theorem lengthsFixed_canonicalForm (c : CentralWidget) (h : c.LengthsFixed) :
    c.canonicalForm.LengthsFixed := by
  unfold LengthsFixed at h ⊢
  simpa using h

@[simp] theorem canonicalForm_s0_isResizable (c : CentralWidget) :
    c.canonicalForm.s0.isResizable = c.s0.isResizable := by
  unfold canonicalForm; split_ifs <;> rfl
@[simp] theorem canonicalForm_s1_isResizable (c : CentralWidget) :
    c.canonicalForm.s1.isResizable = c.s1.isResizable := by
  unfold canonicalForm; split_ifs <;> rfl
@[simp] theorem canonicalForm_s2_isResizable (c : CentralWidget) :
    c.canonicalForm.s2.isResizable = c.s2.isResizable := by
  unfold canonicalForm; split_ifs <;> rfl
@[simp] theorem canonicalForm_s0_direction (c : CentralWidget) :
    c.canonicalForm.s0.direction = c.s0.direction := by
  unfold canonicalForm; split_ifs <;> rfl
@[simp] theorem canonicalForm_s1_direction (c : CentralWidget) :
    c.canonicalForm.s1.direction = c.s1.direction := by
  unfold canonicalForm; split_ifs <;> rfl
@[simp] theorem canonicalForm_s2_direction (c : CentralWidget) :
    c.canonicalForm.s2.direction = c.s2.direction := by
  unfold canonicalForm; split_ifs <;> rfl
@[simp] theorem canonicalForm_s0_grabWidth (c : CentralWidget) :
    c.canonicalForm.s0.grabWidth = c.s0.grabWidth := by
  unfold canonicalForm; split_ifs <;> rfl
@[simp] theorem canonicalForm_s1_grabWidth (c : CentralWidget) :
    c.canonicalForm.s1.grabWidth = c.s1.grabWidth := by
  unfold canonicalForm; split_ifs <;> rfl
@[simp] theorem canonicalForm_s2_grabWidth (c : CentralWidget) :
    c.canonicalForm.s2.grabWidth = c.s2.grabWidth := by
  unfold canonicalForm; split_ifs <;> rfl

theorem canonicalForm_s0_rect_of_hidden (c : CentralWidget)
    (h : c.toolbarVisible = false) : c.canonicalForm.s0.rect = c.s0.rect := by
  unfold canonicalForm; simp [h]

theorem canonicalForm_s1_rect_of_hidden (c : CentralWidget)
    (h : c.panelVisible = false) : c.canonicalForm.s1.rect = c.s1.rect := by
  unfold canonicalForm; simp [h]

theorem canonicalForm_s2_rect_of_hidden (c : CentralWidget)
    (h : c.consoleVisible = false) : c.canonicalForm.s2.rect = c.s2.rect := by
  unfold canonicalForm; simp [h]

/-- `LengthsFixed` transfers to any state with the same lengths and minimum
lengths whose in-call maxima are at least as large. -/
theorem lengthsFixed_of_le (A B : CentralWidget)
    (hL0 : A.s0.length = B.s0.length) (hm0 : A.s0.minimumLength = B.s0.minimumLength)
    (hL1 : A.s1.length = B.s1.length) (hm1 : A.s1.minimumLength = B.s1.minimumLength)
    (hL2 : A.s2.length = B.s2.length) (hm2 : A.s2.minimumLength = B.s2.minimumLength)
    (h : B.LengthsFixed)
    (k0 : B.max0 ≤ A.max0) (k1 : B.max1 ≤ A.max1) (k2 : B.max2 ≤ A.max2) :
    A.LengthsFixed := by
  obtain ⟨f0, f1, f2⟩ := h
  refine ⟨?_, ?_, ?_⟩
  · rw [hL0, hm0]; exact clamp_fix_of_le f0 k0
  · rw [hL1, hm1]; exact clamp_fix_of_le f1 k1
  · rw [hL2, hm2]; exact clamp_fix_of_le f2 k2

/-- `canonicalForm` assigns equal rectangle sets to two states that agree on
the geometry inputs (margin, container, visibilities, lengths) and on the
splitter fields the rectangle derivation reads; hidden dividers keep their
stored rectangles, so those must agree when the divider is hidden. -/
theorem allRects_canonicalForm_congr (X Y : CentralWidget)
    (hm : X.margin = Y.margin) (hw : X.width = Y.width) (hh : X.height = Y.height)
    (ht : X.toolbarVisible = Y.toolbarVisible) (hp : X.panelVisible = Y.panelVisible)
    (hc : X.consoleVisible = Y.consoleVisible)
    (hL0 : X.s0.length = Y.s0.length) (hL1 : X.s1.length = Y.s1.length)
    (hL2 : X.s2.length = Y.s2.length)
    (ha0 : X.s0.isResizable = Y.s0.isResizable) (hb0 : X.s0.direction = Y.s0.direction)
    (hg0 : X.s0.grabWidth = Y.s0.grabWidth)
    (ha1 : X.s1.isResizable = Y.s1.isResizable) (hb1 : X.s1.direction = Y.s1.direction)
    (hg1 : X.s1.grabWidth = Y.s1.grabWidth)
    (ha2 : X.s2.isResizable = Y.s2.isResizable) (hb2 : X.s2.direction = Y.s2.direction)
    (hg2 : X.s2.grabWidth = Y.s2.grabWidth)
    (hr0 : Y.toolbarVisible = false → X.s0.rect = Y.s0.rect)
    (hr1 : Y.panelVisible = false → X.s1.rect = Y.s1.rect)
    (hr2 : Y.consoleVisible = false → X.s2.rect = Y.s2.rect) :
    X.canonicalForm.allRects = Y.canonicalForm.allRects := by
  have hm1v : X.m1 = Y.m1 := by simp [m1, hm]
  have hm2v : X.m2 = Y.m2 := by simp [m2, m1, hm]
  have hx1 : X.x1 = Y.x1 := by simp [x1, m1, hm]
  have hx4 : X.x4 = Y.x4 := by simp [x4, m2, m1, hm, hw]
  have hy1v : X.y1 = Y.y1 := by simp [y1, m1, hm]
  have hy3 : X.y3 = Y.y3 := by simp [y3, m2, m1, hm, hh]
  have hx2 : X.x2 = Y.x2 := by
    unfold x2; rw [ht, hx1, hm, hL0]
  have hx3 : X.x3 = Y.x3 := by
    unfold x3; rw [hp, hx4, hm, hL1]
  have hy2v : X.y2 = Y.y2 := by
    unfold y2; rw [hc, hy3, hm, hL2]
  have htool : X.canonicalForm.toolbarRect = Y.canonicalForm.toolbarRect := by
    show (⟨X.x1 + X.m2, X.y1 + X.m2, X.x2 - X.x1 - X.margin, X.y3 - X.y1 - X.margin⟩ : Rect)
      = (⟨Y.x1 + Y.m2, Y.y1 + Y.m2, Y.x2 - Y.x1 - Y.margin, Y.y3 - Y.y1 - Y.margin⟩ : Rect)
    rw [hx1, hm2v, hy1v, hx2, hm, hy3]
  have hview : X.canonicalForm.viewerRect = Y.canonicalForm.viewerRect := by
    show (⟨X.x2 + X.m2, X.y1 + X.m2, X.x3 - X.x2 - X.margin, X.y2 - X.y1 - X.margin⟩ : Rect)
      = (⟨Y.x2 + Y.m2, Y.y1 + Y.m2, Y.x3 - Y.x2 - Y.margin, Y.y2 - Y.y1 - Y.margin⟩ : Rect)
    rw [hx2, hm2v, hy1v, hx3, hm, hy2v]
  have hcons : X.canonicalForm.consoleRect = Y.canonicalForm.consoleRect := by
    show (⟨X.x2 + X.m2, X.y2 + X.m2, X.x3 - X.x2 - X.margin, X.y3 - X.y2 - X.margin⟩ : Rect)
      = (⟨Y.x2 + Y.m2, Y.y2 + Y.m2, Y.x3 - Y.x2 - Y.margin, Y.y3 - Y.y2 - Y.margin⟩ : Rect)
    rw [hx2, hm2v, hy2v, hx3, hm, hy3]
  have hpan : X.canonicalForm.panelRect = Y.canonicalForm.panelRect := by
    show (⟨X.x3 + X.m2, X.y1 + X.m2, X.x4 - X.x3 - X.margin, X.y3 - X.y1 - X.margin⟩ : Rect)
      = (⟨Y.x3 + Y.m2, Y.y1 + Y.m2, Y.x4 - Y.x3 - Y.margin, Y.y3 - Y.y1 - Y.margin⟩ : Rect)
    rw [hx3, hm2v, hy1v, hx4, hm, hy3]
  have hs0 : X.canonicalForm.s0.rect = Y.canonicalForm.s0.rect := by
    cases hv : Y.toolbarVisible with
    | false =>
        rw [canonicalForm_s0_rect_of_hidden X (ht.trans hv),
          canonicalForm_s0_rect_of_hidden Y hv]
        exact hr0 hv
    | true =>
        have hxv : X.toolbarVisible = true := ht.trans hv
        have eX : X.canonicalForm.s0.rect =
            (X.s0.setGeometryFromCenterline X.x2 (X.y1 + X.m2) (X.y3 - X.y1 - X.margin)).rect := by
          unfold canonicalForm; simp [hxv]
        have eY : Y.canonicalForm.s0.rect =
            (Y.s0.setGeometryFromCenterline Y.x2 (Y.y1 + Y.m2) (Y.y3 - Y.y1 - Y.margin)).rect := by
          unfold canonicalForm; simp [hv]
        rw [eX, eY, hx2, hy1v, hm2v, hy3, hm]
        exact Splitter.sgfc_rect_congr _ _ _ _ _ ha0 hb0 hg0
  have hs1 : X.canonicalForm.s1.rect = Y.canonicalForm.s1.rect := by
    cases hv : Y.panelVisible with
    | false =>
        rw [canonicalForm_s1_rect_of_hidden X (hp.trans hv),
          canonicalForm_s1_rect_of_hidden Y hv]
        exact hr1 hv
    | true =>
        have hxv : X.panelVisible = true := hp.trans hv
        have eX : X.canonicalForm.s1.rect =
            (X.s1.setGeometryFromCenterline X.x3 (X.y1 + X.m2) (X.y3 - X.y1 - X.margin)).rect := by
          unfold canonicalForm; simp [hxv]
        have eY : Y.canonicalForm.s1.rect =
            (Y.s1.setGeometryFromCenterline Y.x3 (Y.y1 + Y.m2) (Y.y3 - Y.y1 - Y.margin)).rect := by
          unfold canonicalForm; simp [hv]
        rw [eX, eY, hx3, hy1v, hm2v, hy3, hm]
        exact Splitter.sgfc_rect_congr _ _ _ _ _ ha1 hb1 hg1
  have hs2 : X.canonicalForm.s2.rect = Y.canonicalForm.s2.rect := by
    cases hv : Y.consoleVisible with
    | false =>
        rw [canonicalForm_s2_rect_of_hidden X (hc.trans hv),
          canonicalForm_s2_rect_of_hidden Y hv]
        exact hr2 hv
    | true =>
        have hxv : X.consoleVisible = true := hc.trans hv
        have eX : X.canonicalForm.s2.rect =
            (X.s2.setGeometryFromCenterline (X.x2 + X.m2) X.y2 (X.x3 - X.x2 - X.margin)).rect := by
          unfold canonicalForm; simp [hxv]
        have eY : Y.canonicalForm.s2.rect =
            (Y.s2.setGeometryFromCenterline (Y.x2 + Y.m2) Y.y2 (Y.x3 - Y.x2 - Y.margin)).rect := by
          unfold canonicalForm; simp [hv]
        rw [eX, eY, hx2, hy2v, hm2v, hx3, hm]
        exact Splitter.sgfc_rect_congr _ _ _ _ _ ha2 hb2 hg2
  unfold allRects
  rw [htool, hview, hcons, hpan, hs0, hs1, hs2]

/-- `canonicalForm` is idempotent: it recomputes every overwritten field from
inputs it preserves. -/
theorem canonicalForm_idem (c : CentralWidget) :
    c.canonicalForm.canonicalForm = c.canonicalForm := by
  obtain ⟨M, w, h, t, p, co, vw, vh, s0, s1, s2, r1, r2, r3, r4⟩ := c
  cases t <;> cases p <;> cases co <;>
    simp [canonicalForm, x1, x2, x3, x4, y1, y2, y3, m1, m2, max0, max1, max2,
      Splitter.setGeometryFromCenterline, Splitter.updateGeometry_]

end CentralWidget

/-! ## C2: the concrete layout scenario -/

/-- C2: with container 1000x800, margin 0, Toolbar hidden, Panel visible with
divider length 200 (minimum 200, maximum not constraining) and Console
visible with divider length 200 (minimum 50), `updateGeometries_` assigns the
Viewer the rectangle (0, 0, 800, 600), the Panel (800, 0, 200, 800) and the
Console (0, 600, 800, 200). -/
theorem C2_concrete_scenario :
    c2state.updateGeometries_.viewerRect = ⟨0, 0, 800, 600⟩ ∧
    c2state.updateGeometries_.panelRect = ⟨800, 0, 200, 800⟩ ∧
    c2state.updateGeometries_.consoleRect = ⟨0, 600, 800, 200⟩ := by
  decide

/-! ## C10: the two-iteration maximum-length loop -/

/-- C10: the bounds `k0, k1, k2` fed to the maximum-length loop are computed
from local positions that the loop body never recomputes, so the second
iteration assigns each splitter exactly the same maximum as the first, and
running the body twice leaves every splitter (length and maximum included)
exactly as one run does: further convergence can only happen across separate
`updateGeometries_` calls. -/
theorem C10_second_pass_noop (k0 k1 k2 : Int) (s : Splitter × Splitter × Splitter) :
    maxLengthsPass k0 k1 k2 (maxLengthsPass k0 k1 k2 s) = maxLengthsPass k0 k1 k2 s ∧
    (maxLengthsPass k0 k1 k2 s).1.maximumLength = k0 ∧
    (maxLengthsPass k0 k1 k2 s).2.1.maximumLength = k1 ∧
    (maxLengthsPass k0 k1 k2 s).2.2.maximumLength = k2 := by
  refine ⟨?_, by simp [maxLengthsPass], by simp [maxLengthsPass], by simp [maxLengthsPass]⟩
  simp [maxLengthsPass, Splitter.setMaximumLength_idem]

/-! ## C6: `setLength` stays within a well-formed range -/

/-- C6: for every splitter whose bounds satisfy `minimumLength ≤
maximumLength` and every requested value, including values far outside the
range, the length stored by `setLength` lies within
`[minimumLength, maximumLength]`. -/
theorem C6_setLength_within_range (s : Splitter) (v : Int)
    (h : s.minimumLength ≤ s.maximumLength) :
    s.minimumLength ≤ (s.setLength v).length ∧
    (s.setLength v).length ≤ s.maximumLength := by
  rw [Splitter.setLength_length]
  exact clamp_mem h

theorem C6_witness :
    (Splitter.construct Direction.left true 200 200 1000).minimumLength ≤
      ((Splitter.construct Direction.left true 200 200 1000).setLength 999999).length ∧
    ((Splitter.construct Direction.left true 200 200 1000).setLength 999999).length ≤
      (Splitter.construct Direction.left true 200 200 1000).maximumLength :=
  C6_setLength_within_range (Splitter.construct Direction.left true 200 200 1000) 999999
    (by decide)

/-! ## C5: the length invariant under every mutation -/

/-- C5 as stated is false: `setMaximumLength 0` on a splitter with
`minimumLength = 200` leaves `length = 200 > maximumLength = 0`, so the
invariant `minimumLength ≤ length ≤ maximumLength` fails after that
mutation (the bounds themselves cross, which no clamp of the length can
repair). -/
theorem C5_counterexample :
    ¬ ((c5state.setMaximumLength 0).minimumLength ≤ (c5state.setMaximumLength 0).length ∧
       (c5state.setMaximumLength 0).length ≤ (c5state.setMaximumLength 0).maximumLength) := by
  decide

/-- C5 amended: after every mutation of a divider's length or bounds —
`setLength`, `setMinimumLength`, `setMaximumLength`, `setLengthRange`,
construction, or a drag update — whose *resulting* bounds satisfy
`minimumLength ≤ maximumLength`, the invariant
`minimumLength ≤ length ≤ maximumLength` holds; the mutation clamps rather
than signalling an error.  (When a mutation makes `minimumLength >
maximumLength` the two-sided invariant is unsatisfiable; the length is then
clamped to the minimum.) -/
theorem C5_length_invariant_after_mutation (s : Splitter) (op : LengthMutation)
    (h : (s.applyLengthMutation op).minimumLength ≤ (s.applyLengthMutation op).maximumLength) :
    (s.applyLengthMutation op).minimumLength ≤ (s.applyLengthMutation op).length ∧
    (s.applyLengthMutation op).length ≤ (s.applyLengthMutation op).maximumLength := by
  cases op with
  | setLength v =>
      simp only [Splitter.applyLengthMutation, Splitter.setLength_length,
        Splitter.setLength_minimumLength, Splitter.setLength_maximumLength] at h ⊢
      exact clamp_mem h
  | setMinimumLength v =>
      simp only [Splitter.applyLengthMutation, Splitter.setMinimumLength_length,
        Splitter.setMinimumLength_minimumLength, Splitter.setMinimumLength_maximumLength] at h ⊢
      exact clamp_mem h
  | setMaximumLength v =>
      simp only [Splitter.applyLengthMutation, Splitter.setMaximumLength_length,
        Splitter.setMaximumLength_minimumLength, Splitter.setMaximumLength_maximumLength] at h ⊢
      exact clamp_mem h
  | setLengthRange lo hi =>
      simp only [Splitter.applyLengthMutation, Splitter.setLengthRange,
        Splitter.setMaximumLength_length, Splitter.setMaximumLength_minimumLength,
        Splitter.setMaximumLength_maximumLength, Splitter.setMinimumLength_length,
        Splitter.setMinimumLength_minimumLength,
        Splitter.setMinimumLength_maximumLength] at h ⊢
      exact clamp_mem h
  | construct d r len lo hi =>
      simp only [Splitter.applyLengthMutation, Splitter.construct,
        Splitter.updateGeometry_length, Splitter.updateGeometry_minimumLength,
        Splitter.updateGeometry_maximumLength] at h ⊢
      exact clamp_mem h
  | drag z =>
      simp only [Splitter.applyLengthMutation, Splitter.dragLength_length,
        Splitter.dragLength_minimumLength, Splitter.dragLength_maximumLength] at h ⊢
      exact clamp_mem h

theorem C5_witness :
    (c5state.applyLengthMutation (.setMaximumLength 500)).minimumLength ≤
      (c5state.applyLengthMutation (.setMaximumLength 500)).length ∧
    (c5state.applyLengthMutation (.setMaximumLength 500)).length ≤
      (c5state.applyLengthMutation (.setMaximumLength 500)).maximumLength :=
  C5_length_invariant_after_mutation c5state (.setMaximumLength 500) (by decide)

/-! ## C9: the grab/highlight width invariant -/

theorem Splitter.widthOp_preserves (s : Splitter) (op : WidthOp)
    (h : 0 ≤ s.highlightWidth ∧ s.highlightWidth ≤ s.grabWidth) :
    0 ≤ (s.applyWidthOp op).highlightWidth ∧
    (s.applyWidthOp op).highlightWidth ≤ (s.applyWidthOp op).grabWidth := by
  cases op with
  | grab w =>
      simp only [applyWidthOp, setGrabWidth]
      split_ifs <;> simp_all
  | highlight w =>
      simp only [applyWidthOp, setHighlightWidth]
      split_ifs <;> simp_all

theorem Splitter.widthOps_preserve (ops : List WidthOp) (s : Splitter)
    (h : 0 ≤ s.highlightWidth ∧ s.highlightWidth ≤ s.grabWidth) :
    0 ≤ (s.applyWidthOps ops).highlightWidth ∧
    (s.applyWidthOps ops).highlightWidth ≤ (s.applyWidthOps ops).grabWidth := by
  induction ops generalizing s with
  | nil => exact h
  | cons op ops ih => exact ih _ (s.widthOp_preserves op h)

/-- C9: after any sequence of `setGrabWidth` / `setHighlightWidth` calls
starting from a freshly constructed splitter (grab width 10, highlight width
4), the stored widths satisfy `grabWidth ≥ highlightWidth ≥ 0`; a state with
`grabWidth < highlightWidth` is never observable. -/
theorem C9_grab_ge_highlight (ops : List WidthOp) (d : Direction) (r : Bool)
    (len lo hi : Int) :
    0 ≤ ((Splitter.construct d r len lo hi).applyWidthOps ops).highlightWidth ∧
    ((Splitter.construct d r len lo hi).applyWidthOps ops).highlightWidth ≤
      ((Splitter.construct d r len lo hi).applyWidthOps ops).grabWidth := by
  refine Splitter.widthOps_preserve ops _ ⟨?_, ?_⟩ <;> simp [Splitter.construct]

/-! ## C4: idempotence of the recompute -/

/-- C4 as stated is false: from the reachable stale-length state `c4bad`
(panel divider dragged long, container since shrunk), a first
`updateGeometries_` places the regions using the entry length 500 but clamps
the stored length to 300, so the second call assigns a different Viewer
rectangle than the first call left. -/
theorem C4_counterexample :
    c4bad.updateGeometries_.updateGeometries_.viewerRect ≠
      c4bad.updateGeometries_.viewerRect := by
  decide

/-- C4 amended: a single `updateGeometries_` call need not be idempotent,
because the region rectangles are computed from the entry lengths, which the
call itself may clamp.  What holds is idempotence from the second call on:
from any state whose splitter lengths are at least their minima (an invariant
of every reachable state), the result of two consecutive calls is a true
fixed point — a third call changes nothing at all (every region rectangle
and every divider length, bound and rectangle included). -/
theorem C4_second_call_reaches_fixed_point (c : CentralWidget)
    (h0 : c.s0.minimumLength ≤ c.s0.length)
    (h1 : c.s1.minimumLength ≤ c.s1.length) :
    c.updateGeometries_.updateGeometries_.updateGeometries_ =
      c.updateGeometries_.updateGeometries_ := by
  have hA : c.updateGeometries_.LengthsFixed :=
    CentralWidget.lengthsFixed_update c h0 h1
  have e1 := CentralWidget.update_of_lengthsFixed _ hA
  have hB := CentralWidget.lengthsFixed_canonicalForm _ hA
  have e2 := CentralWidget.update_of_lengthsFixed _ hB
  rw [e1, e2, CentralWidget.canonicalForm_idem]

theorem C4_witness :
    c4bad.updateGeometries_.updateGeometries_.updateGeometries_ =
      c4bad.updateGeometries_.updateGeometries_ :=
  C4_second_call_reaches_fixed_point c4bad (by decide) (by decide)

/-! ## C1: geometry for containers at least the minimum-size hint -/

/-- C1 as stated is false: in `c1bad` the container (400x400) is at least the
computed minimum-size hint (306x156), yet one `updateGeometries_` call
assigns the Viewer a rectangle narrower than the viewer's minimum width (the
panel divider's entry length 500 is stale and used before the loop clamps
it), and assigns the hidden Toolbar a rectangle of negative width `-margin`. -/
theorem C1_counterexample :
    c1bad.minimumSizeHintW ≤ c1bad.width ∧
    c1bad.minimumSizeHintH ≤ c1bad.height ∧
    c1bad.updateGeometries_.viewerRect.w < c1bad.viewerMinW ∧
    c1bad.updateGeometries_.toolbarRect.w < 0 := by
  decide

/-- C1 amended: for every container at least the minimum-size hint, if in
addition each visible divider's entry length is at most the maximum the call
computes for it (true of every state a previous recompute with the same
inputs has clamped), then the recompute assigns every *visible* region a
rectangle with non-negative extents, the Viewer's rectangle is at least the
viewer's minimum size, and a hidden satellite's degenerate extent is exactly
`-margin` (hence non-negative only for margin 0). -/
theorem C1_visible_regions_nonneg_viewer_at_least_min (c : CentralWidget)
    (hM : 0 ≤ c.margin) (hvw : 0 ≤ c.viewerMinW) (hvh : 0 ≤ c.viewerMinH)
    (hn0 : 0 ≤ c.s0.minimumLength) (hn1 : 0 ≤ c.s1.minimumLength)
    (hn2 : 0 ≤ c.s2.minimumLength)
    (hl0 : c.s0.minimumLength ≤ c.s0.length)
    (hl1 : c.s1.minimumLength ≤ c.s1.length)
    (hl2 : c.s2.minimumLength ≤ c.s2.length)
    (hw : c.minimumSizeHintW ≤ c.width) (hh : c.minimumSizeHintH ≤ c.height)
    (hc0 : c.toolbarVisible = true → c.s0.length ≤ c.max0)
    (hc1 : c.panelVisible = true → c.s1.length ≤ c.max1)
    (hc2 : c.consoleVisible = true → c.s2.length ≤ c.max2) :
    c.viewerMinW ≤ c.updateGeometries_.viewerRect.w ∧
    c.viewerMinH ≤ c.updateGeometries_.viewerRect.h ∧
    0 ≤ c.updateGeometries_.toolbarRect.h ∧
    0 ≤ c.updateGeometries_.panelRect.h ∧
    0 ≤ c.updateGeometries_.consoleRect.w ∧
    (c.toolbarVisible = true → 0 ≤ c.updateGeometries_.toolbarRect.w) ∧
    (c.toolbarVisible = false → c.updateGeometries_.toolbarRect.w = -c.margin) ∧
    (c.panelVisible = true → 0 ≤ c.updateGeometries_.panelRect.w) ∧
    (c.panelVisible = false → c.updateGeometries_.panelRect.w = -c.margin) ∧
    (c.consoleVisible = true → 0 ≤ c.updateGeometries_.consoleRect.h) ∧
    (c.consoleVisible = false → c.updateGeometries_.consoleRect.h = -c.margin) := by
  obtain ⟨hq1, hq2⟩ := tdiv2_bounds c.margin hM
  cases ht : c.toolbarVisible <;> cases hp : c.panelVisible <;>
    cases hcv : c.consoleVisible <;>
      simp [ht, hp, hcv, CentralWidget.update_viewerRect, CentralWidget.update_toolbarRect,
        CentralWidget.update_consoleRect, CentralWidget.update_panelRect,
        CentralWidget.minimumSizeHintW, CentralWidget.minimumSizeHintH,
        CentralWidget.max0, CentralWidget.max1, CentralWidget.max2,
        CentralWidget.x1, CentralWidget.x2, CentralWidget.x3, CentralWidget.x4,
        CentralWidget.y1, CentralWidget.y2, CentralWidget.y3,
        CentralWidget.m1, CentralWidget.m2] at hw hh hc0 hc1 hc2 ⊢ <;>
      omega

theorem C1_witness :
    c1good.viewerMinW ≤ c1good.updateGeometries_.viewerRect.w ∧
    c1good.viewerMinH ≤ c1good.updateGeometries_.viewerRect.h ∧
    0 ≤ c1good.updateGeometries_.toolbarRect.h ∧
    0 ≤ c1good.updateGeometries_.panelRect.h ∧
    0 ≤ c1good.updateGeometries_.consoleRect.w ∧
    (c1good.toolbarVisible = true → 0 ≤ c1good.updateGeometries_.toolbarRect.w) ∧
    (c1good.toolbarVisible = false → c1good.updateGeometries_.toolbarRect.w = -c1good.margin) ∧
    (c1good.panelVisible = true → 0 ≤ c1good.updateGeometries_.panelRect.w) ∧
    (c1good.panelVisible = false → c1good.updateGeometries_.panelRect.w = -c1good.margin) ∧
    (c1good.consoleVisible = true → 0 ≤ c1good.updateGeometries_.consoleRect.h) ∧
    (c1good.consoleVisible = false → c1good.updateGeometries_.consoleRect.h = -c1good.margin) :=
  C1_visible_regions_nonneg_viewer_at_least_min c1good (by decide) (by decide) (by decide)
    (by decide) (by decide) (by decide) (by decide) (by decide) (by decide) (by decide)
    (by decide) (by decide) (by decide) (by decide)

/-! ## C3: whether rectangles can go negative -/

/-- C3 as stated is false: with a 100-wide container and the panel divider at
its minimum length 200, the recompute assigns the Viewer a rectangle of
width -100.  Nothing in `updateGeometries_` clamps a region rectangle; only
divider lengths are clamped. -/
theorem C3_counterexample : c3bad.updateGeometries_.viewerRect.w < 0 := by
  decide

/-- C3 amended: region rectangles *can* receive negative extents — the
two-pass loop clamps only divider lengths, never the region rectangles, so
undersized containers produce negative extents, and with a positive margin a
hidden satellite's rectangle has extent `-margin`.  What holds: with margin
0, a container at least the minimum-size hint, and each visible divider's
entry length at most the maximum the call computes for it, all four region
rectangles have non-negative width and height. -/
theorem C3_region_rects_nonneg (c : CentralWidget)
    (hM : c.margin = 0) (hvw : 0 ≤ c.viewerMinW) (hvh : 0 ≤ c.viewerMinH)
    (hn0 : 0 ≤ c.s0.minimumLength) (hn1 : 0 ≤ c.s1.minimumLength)
    (hn2 : 0 ≤ c.s2.minimumLength)
    (hl0 : c.s0.minimumLength ≤ c.s0.length)
    (hl1 : c.s1.minimumLength ≤ c.s1.length)
    (hl2 : c.s2.minimumLength ≤ c.s2.length)
    (hw : c.minimumSizeHintW ≤ c.width) (hh : c.minimumSizeHintH ≤ c.height)
    (hc0 : c.toolbarVisible = true → c.s0.length ≤ c.max0)
    (hc1 : c.panelVisible = true → c.s1.length ≤ c.max1)
    (hc2 : c.consoleVisible = true → c.s2.length ≤ c.max2) :
    0 ≤ c.updateGeometries_.toolbarRect.w ∧ 0 ≤ c.updateGeometries_.toolbarRect.h ∧
    0 ≤ c.updateGeometries_.viewerRect.w ∧ 0 ≤ c.updateGeometries_.viewerRect.h ∧
    0 ≤ c.updateGeometries_.consoleRect.w ∧ 0 ≤ c.updateGeometries_.consoleRect.h ∧
    0 ≤ c.updateGeometries_.panelRect.w ∧ 0 ≤ c.updateGeometries_.panelRect.h := by
  obtain ⟨hq1, hq2⟩ := tdiv2_bounds c.margin (le_of_eq hM.symm)
  cases ht : c.toolbarVisible <;> cases hp : c.panelVisible <;>
    cases hcv : c.consoleVisible <;>
      simp [ht, hp, hcv, CentralWidget.update_viewerRect, CentralWidget.update_toolbarRect,
        CentralWidget.update_consoleRect, CentralWidget.update_panelRect,
        CentralWidget.minimumSizeHintW, CentralWidget.minimumSizeHintH,
        CentralWidget.max0, CentralWidget.max1, CentralWidget.max2,
        CentralWidget.x1, CentralWidget.x2, CentralWidget.x3, CentralWidget.x4,
        CentralWidget.y1, CentralWidget.y2, CentralWidget.y3,
        CentralWidget.m1, CentralWidget.m2] at hw hh hc0 hc1 hc2 ⊢ <;>
      omega

/-! ## C7: satellite visibility round trip -/

/-- C7 as stated is false: from the reachable stale-length state reached by
one recompute of `c7bad` (panel divider dragged to 500 while wide, container
since shrunk), toggling the Panel off and back on yields a different
rectangle set: the first recompute placed the regions using the stale entry
length 500 but clamped the stored length to 300, and the post-toggle
recomputes use 300. -/
theorem C7_counterexample :
    ((c7bad.updateGeometries_.setSatelliteVisible Satellite.panel false).setSatelliteVisible
        Satellite.panel true).allRects ≠ c7bad.updateGeometries_.allRects := by
  decide

/-- C7 amended: toggling one satellite region invisible and then visible
again, with no other state change in between, restores exactly the same
rectangles for all four regions and all three dividers, *provided* the
pre-toggle state is converged — its entry lengths are what the recompute's
clamping produces (`LengthsFixed`), as after any recompute whose inputs have
not changed since.  Without that proviso the off-toggle recompute can clamp
a stale length and the restored rectangles differ (see the counterexample). -/
theorem C7_toggle_round_trip (d : CentralWidget) (r : Satellite)
    (hM : 0 ≤ d.margin)
    (hn0 : 0 ≤ d.s0.minimumLength) (hn1 : 0 ≤ d.s1.minimumLength)
    (hl0 : d.s0.minimumLength ≤ d.s0.length) (hl1 : d.s1.minimumLength ≤ d.s1.length)
    (hfix : d.LengthsFixed)
    (hvis : d.satelliteVisible r = true) :
    ((d.updateGeometries_.setSatelliteVisible r false).setSatelliteVisible r true).allRects
      = d.updateGeometries_.allRects := by
  have e0 := CentralWidget.update_of_lengthsFixed d hfix
  cases r with
  | panel =>
      have hvis' : d.panelVisible = true := hvis
      simp only [CentralWidget.setSatelliteVisible, CentralWidget.setPanelVisible]
      rw [e0]
      have hfixT' : ({ d.canonicalForm with panelVisible := false }
          : CentralWidget).LengthsFixed := by
        refine CentralWidget.lengthsFixed_of_le _ d (by simp) (by simp) (by simp) (by simp)
          (by simp) (by simp) hfix ?_ ?_ ?_
        · simp only [CentralWidget.max0, CentralWidget.x3, CentralWidget.x4, CentralWidget.x1,
            CentralWidget.m1, CentralWidget.m2]
          simp [hvis']
          omega
        · simp only [CentralWidget.max1, CentralWidget.x2, CentralWidget.x4, CentralWidget.x1,
            CentralWidget.m1, CentralWidget.m2]
          simp
        · simp only [CentralWidget.max2, CentralWidget.y3, CentralWidget.y1,
            CentralWidget.m1, CentralWidget.m2]
          simp
      rw [CentralWidget.update_of_lengthsFixed _ hfixT']
      have hfixT'' : ({ ({ d.canonicalForm with panelVisible := false }
          : CentralWidget).canonicalForm with panelVisible := true }
          : CentralWidget).LengthsFixed := by
        refine CentralWidget.lengthsFixed_of_le _ d (by simp) (by simp) (by simp) (by simp)
          (by simp) (by simp) hfix ?_ ?_ ?_
        · simp only [CentralWidget.max0, CentralWidget.x3, CentralWidget.x4, CentralWidget.x1,
            CentralWidget.m1, CentralWidget.m2]
          simp [hvis']
        · simp only [CentralWidget.max1, CentralWidget.x2, CentralWidget.x4, CentralWidget.x1,
            CentralWidget.m1, CentralWidget.m2]
          simp
        · simp only [CentralWidget.max2, CentralWidget.y3, CentralWidget.y1,
            CentralWidget.m1, CentralWidget.m2]
          simp
      rw [CentralWidget.update_of_lengthsFixed _ hfixT'']
      refine CentralWidget.allRects_canonicalForm_congr _ _ (by simp) (by simp) (by simp) (by simp)
        (by simp [hvis']) (by simp) (by simp) (by simp) (by simp) (by simp) (by simp)
        (by simp) (by simp) (by simp) (by simp) (by simp) (by simp) (by simp) ?_ ?_ ?_
      · intro h
        have h1 : ({ d.canonicalForm with panelVisible := false }
            : CentralWidget).toolbarVisible = false := by simp [h]
        show ({ d.canonicalForm with panelVisible := false }
            : CentralWidget).canonicalForm.s0.rect = d.s0.rect
        rw [CentralWidget.canonicalForm_s0_rect_of_hidden _ h1]
        show d.canonicalForm.s0.rect = d.s0.rect
        exact CentralWidget.canonicalForm_s0_rect_of_hidden d h
      · intro h
        rw [hvis'] at h
        exact absurd h (by decide)
      · intro h
        have h1 : ({ d.canonicalForm with panelVisible := false }
            : CentralWidget).consoleVisible = false := by simp [h]
        show ({ d.canonicalForm with panelVisible := false }
            : CentralWidget).canonicalForm.s2.rect = d.s2.rect
        rw [CentralWidget.canonicalForm_s2_rect_of_hidden _ h1]
        show d.canonicalForm.s2.rect = d.s2.rect
        exact CentralWidget.canonicalForm_s2_rect_of_hidden d h
  | toolbar =>
      have hvis' : d.toolbarVisible = true := hvis
      simp only [CentralWidget.setSatelliteVisible, CentralWidget.setToolbarVisible]
      rw [e0]
      have hfixT' : ({ d.canonicalForm with toolbarVisible := false }
          : CentralWidget).LengthsFixed := by
        refine CentralWidget.lengthsFixed_of_le _ d (by simp) (by simp) (by simp) (by simp)
          (by simp) (by simp) hfix ?_ ?_ ?_
        · simp only [CentralWidget.max0, CentralWidget.x3, CentralWidget.x4, CentralWidget.x1,
            CentralWidget.m1, CentralWidget.m2]
          simp
        · simp only [CentralWidget.max1, CentralWidget.x2, CentralWidget.x4, CentralWidget.x1,
            CentralWidget.m1, CentralWidget.m2]
          simp [hvis']
          omega
        · simp only [CentralWidget.max2, CentralWidget.y3, CentralWidget.y1,
            CentralWidget.m1, CentralWidget.m2]
          simp
      rw [CentralWidget.update_of_lengthsFixed _ hfixT']
      have hfixT'' : ({ ({ d.canonicalForm with toolbarVisible := false }
          : CentralWidget).canonicalForm with toolbarVisible := true }
          : CentralWidget).LengthsFixed := by
        refine CentralWidget.lengthsFixed_of_le _ d (by simp) (by simp) (by simp) (by simp)
          (by simp) (by simp) hfix ?_ ?_ ?_
        · simp only [CentralWidget.max0, CentralWidget.x3, CentralWidget.x4, CentralWidget.x1,
            CentralWidget.m1, CentralWidget.m2]
          simp
        · simp only [CentralWidget.max1, CentralWidget.x2, CentralWidget.x4, CentralWidget.x1,
            CentralWidget.m1, CentralWidget.m2]
          simp [hvis']
        · simp only [CentralWidget.max2, CentralWidget.y3, CentralWidget.y1,
            CentralWidget.m1, CentralWidget.m2]
          simp
      rw [CentralWidget.update_of_lengthsFixed _ hfixT'']
      refine CentralWidget.allRects_canonicalForm_congr _ _ (by simp) (by simp) (by simp)
        (by simp [hvis']) (by simp) (by simp) (by simp) (by simp) (by simp) (by simp)
        (by simp) (by simp) (by simp) (by simp) (by simp) (by simp) (by simp) (by simp)
        ?_ ?_ ?_
      · intro h
        rw [hvis'] at h
        exact absurd h (by decide)
      · intro h
        have h1 : ({ d.canonicalForm with toolbarVisible := false }
            : CentralWidget).panelVisible = false := by simp [h]
        show ({ d.canonicalForm with toolbarVisible := false }
            : CentralWidget).canonicalForm.s1.rect = d.s1.rect
        rw [CentralWidget.canonicalForm_s1_rect_of_hidden _ h1]
        show d.canonicalForm.s1.rect = d.s1.rect
        exact CentralWidget.canonicalForm_s1_rect_of_hidden d h
      · intro h
        have h1 : ({ d.canonicalForm with toolbarVisible := false }
            : CentralWidget).consoleVisible = false := by simp [h]
        show ({ d.canonicalForm with toolbarVisible := false }
            : CentralWidget).canonicalForm.s2.rect = d.s2.rect
        rw [CentralWidget.canonicalForm_s2_rect_of_hidden _ h1]
        show d.canonicalForm.s2.rect = d.s2.rect
        exact CentralWidget.canonicalForm_s2_rect_of_hidden d h
  | console =>
      have hvis' : d.consoleVisible = true := hvis
      simp only [CentralWidget.setSatelliteVisible, CentralWidget.setConsoleVisible]
      rw [e0]
      have hfixT' : ({ d.canonicalForm with consoleVisible := false }
          : CentralWidget).LengthsFixed := by
        refine CentralWidget.lengthsFixed_of_le _ d (by simp) (by simp) (by simp) (by simp)
          (by simp) (by simp) hfix ?_ ?_ ?_
        · simp only [CentralWidget.max0, CentralWidget.x3, CentralWidget.x4, CentralWidget.x1,
            CentralWidget.m1, CentralWidget.m2]
          simp
        · simp only [CentralWidget.max1, CentralWidget.x2, CentralWidget.x4, CentralWidget.x1,
            CentralWidget.m1, CentralWidget.m2]
          simp
        · simp only [CentralWidget.max2, CentralWidget.y3, CentralWidget.y1,
            CentralWidget.m1, CentralWidget.m2]
          simp
      rw [CentralWidget.update_of_lengthsFixed _ hfixT']
      have hfixT'' : ({ ({ d.canonicalForm with consoleVisible := false }
          : CentralWidget).canonicalForm with consoleVisible := true }
          : CentralWidget).LengthsFixed := by
        refine CentralWidget.lengthsFixed_of_le _ d (by simp) (by simp) (by simp) (by simp)
          (by simp) (by simp) hfix ?_ ?_ ?_
        · simp only [CentralWidget.max0, CentralWidget.x3, CentralWidget.x4, CentralWidget.x1,
            CentralWidget.m1, CentralWidget.m2]
          simp
        · simp only [CentralWidget.max1, CentralWidget.x2, CentralWidget.x4, CentralWidget.x1,
            CentralWidget.m1, CentralWidget.m2]
          simp
        · simp only [CentralWidget.max2, CentralWidget.y3, CentralWidget.y1,
            CentralWidget.m1, CentralWidget.m2]
          simp
      rw [CentralWidget.update_of_lengthsFixed _ hfixT'']
      refine CentralWidget.allRects_canonicalForm_congr _ _ (by simp) (by simp) (by simp) (by simp)
        (by simp) (by simp [hvis']) (by simp) (by simp) (by simp) (by simp) (by simp)
        (by simp) (by simp) (by simp) (by simp) (by simp) (by simp) (by simp) ?_ ?_ ?_
      · intro h
        have h1 : ({ d.canonicalForm with consoleVisible := false }
            : CentralWidget).toolbarVisible = false := by simp [h]
        show ({ d.canonicalForm with consoleVisible := false }
            : CentralWidget).canonicalForm.s0.rect = d.s0.rect
        rw [CentralWidget.canonicalForm_s0_rect_of_hidden _ h1]
        show d.canonicalForm.s0.rect = d.s0.rect
        exact CentralWidget.canonicalForm_s0_rect_of_hidden d h
      · intro h
        have h1 : ({ d.canonicalForm with consoleVisible := false }
            : CentralWidget).panelVisible = false := by simp [h]
        show ({ d.canonicalForm with consoleVisible := false }
            : CentralWidget).canonicalForm.s1.rect = d.s1.rect
        rw [CentralWidget.canonicalForm_s1_rect_of_hidden _ h1]
        show d.canonicalForm.s1.rect = d.s1.rect
        exact CentralWidget.canonicalForm_s1_rect_of_hidden d h
      · intro h
        rw [hvis'] at h
        exact absurd h (by decide)

theorem C7_witness :
    ((c7good.updateGeometries_.setSatelliteVisible Satellite.panel false).setSatelliteVisible
        Satellite.panel true).allRects = c7good.updateGeometries_.allRects :=
  C7_toggle_round_trip c7good Satellite.panel (by decide) (by decide) (by decide) (by decide)
    (by decide) (by decide) (by decide)

/-! ## C8: panel-divider drag round trip -/

/-- C8: during a single press of the panel divider (`splitters_[1]`, whose
direction is Left), a pointer move of `+d` along the drag axis followed by a
move back to the press coordinate returns the divider's length to its value
at press time, provided no clamping against the minimum or maximum length
occurs during the drag; each move sets the length to `lengthOnPress − offset`
(direction Left drags toward the origin), clamped.  The clamp-freeness
proviso is the hypotheses `hnc1`, `hnc2` and `hnc3`: the first move's length
survives unclamped, and the press-time length is within the maxima in force
at the second move and after its recompute. -/
theorem C8_drag_round_trip (c : CentralWidget) (px py d : Int)
    (hdir : c.s1.direction = Direction.left)
    (hmin : c.s1.minimumLength ≤ c.s1.length)
    (hnc1 : ((c.s1MousePress px py).s1MouseMove (px + d) py).s1.length = c.s1.length - d)
    (hnc2 : c.s1.length ≤ ((c.s1MousePress px py).s1MouseMove (px + d) py).s1.maximumLength)
    (hnc3 : c.s1.length ≤
      (((c.s1MousePress px py).s1MouseMove (px + d) py).s1MouseMove px py).s1.maximumLength) :
    (((c.s1MousePress px py).s1MouseMove (px + d) py).s1MouseMove px py).s1.length
      = c.s1.length := by
  set c1 := (c.s1MousePress px py).s1MouseMove (px + d) py with hc1
  have hdir1 : c1.s1.direction = Direction.left := by
    rw [hc1]
    simp [CentralWidget.s1MouseMove, CentralWidget.s1MousePress, hdir]
  have hlp1 : c1.s1.lengthOnPress = c.s1.length := by
    rw [hc1]
    simp [CentralWidget.s1MouseMove, CentralWidget.s1MousePress]
  have hzp1 : c1.s1.zOnPress = px := by
    rw [hc1]
    simp [CentralWidget.s1MouseMove, CentralWidget.s1MousePress, hdir, zProj,
      Direction.orientation]
  have hmin1 : c1.s1.minimumLength = c.s1.minimumLength := by
    rw [hc1]
    simp [CentralWidget.s1MouseMove, CentralWidget.s1MousePress]
  have hX : ({ c1 with s1 := c1.s1.dragLength (zProj c1.s1.direction px py) }
      : CentralWidget).s1.length = c.s1.length := by
    show (c1.s1.dragLength (zProj c1.s1.direction px py)).length = c.s1.length
    rw [Splitter.dragLength_length, hdir1, hmin1, hlp1, hzp1]
    have hz : zProj Direction.left px py = px := rfl
    rw [hz]
    have harg : c.s1.length - (px - px) = c.s1.length := by omega
    simp only [reduceCtorEq, or_self, if_false, harg]
    exact clamp_eq_self hmin hnc2
  have hXmin : ({ c1 with s1 := c1.s1.dragLength (zProj c1.s1.direction px py) }
      : CentralWidget).s1.minimumLength = c.s1.minimumLength := by
    show (c1.s1.dragLength (zProj c1.s1.direction px py)).minimumLength = c.s1.minimumLength
    rw [Splitter.dragLength_minimumLength, hmin1]
  simp only [CentralWidget.s1MouseMove] at hnc3 ⊢
  rw [CentralWidget.update_s1_maximumLength] at hnc3
  rw [CentralWidget.update_s1_length, hX, hXmin]
  exact clamp_eq_self hmin hnc3

theorem C8_witness :
    (((c8good.s1MousePress 10 20).s1MouseMove (10 + 50) 20).s1MouseMove 10 20).s1.length
      = c8good.s1.length :=
  C8_drag_round_trip c8good 10 20 50 (by decide) (by decide) (by decide) (by decide)
    (by decide)

theorem C3_witness :
    0 ≤ c3good.updateGeometries_.toolbarRect.w ∧ 0 ≤ c3good.updateGeometries_.toolbarRect.h ∧
    0 ≤ c3good.updateGeometries_.viewerRect.w ∧ 0 ≤ c3good.updateGeometries_.viewerRect.h ∧
    0 ≤ c3good.updateGeometries_.consoleRect.w ∧ 0 ≤ c3good.updateGeometries_.consoleRect.h ∧
    0 ≤ c3good.updateGeometries_.panelRect.w ∧ 0 ≤ c3good.updateGeometries_.panelRect.h :=
  C3_region_rects_nonneg c3good (by decide) (by decide) (by decide) (by decide) (by decide)
    (by decide) (by decide) (by decide) (by decide) (by decide) (by decide) (by decide)
    (by decide) (by decide)

end Vgc
